import Mathlib

/-!
Shallow embedding of the session-coordination core of the multi-user AI
chat server (reference revision: the complete server source with the
community-prompt voting system).

Modelling conventions:
* JavaScript `Map`s keyed by socket id become association lists of `User`
  values (insertion order preserved, ids unique by construction of `set`).
* JavaScript `Set`s of socket ids become `Finset Nat`.
* Timestamps (`Date.now()`) are passed in as explicit `now : Nat` arguments.
* Timer handles (`setTimeout` / `setInterval`) are not representable in a
  pure embedding; a voting round or clear-vote session "has a live timer"
  exactly when its singleton is `some _`, so timer cancellation is modelled
  by setting the singleton to `none`.
* The AI gateway call (`generateAIResponse`) is an external capability; its
  outcome is passed in as `gateway : Option String` (`some reply` for a
  successful generation, `none` when the call throws/rejects).
* `socket.emit` / `io.emit` become an explicit list of `Emit` records.
  Structured payloads (serialized prompt lists, counts, vote tallies) are
  abstracted to `none`; string payloads that the claims distinguish are kept
  verbatim.
* Idle-timeout bookkeeping (`joinedAt`, `lastActivity`, `timeoutTimer`,
  `updateUserActivity`) touches no collection any claim mentions and is
  omitted from the state.
* The clear-vote percentages are computed in the source with floating-point
  division (`yesVotes.size / connectedUsers.size >= 0.7`); they are modelled
  with exact rational division, which agrees with the double comparison for
  every feasible participant count.
-/

set_option maxRecDepth 4000

abbrev SocketId := Nat

/-- JavaScript `String.prototype.trim`: strip whitespace from both ends.
(Defined over the character list so that concrete states evaluate.) -/
def trimChars (l : List Char) : List Char :=
  ((l.dropWhile Char.isWhitespace).reverse.dropWhile Char.isWhitespace).reverse

/-- JavaScript `.trim()` on a string. -/
def jsTrim (s : String) : String := ⟨trimChars s.data⟩

/-- JavaScript `.toLowerCase()` (case folding, per character). -/
def jsToLower (s : String) : String := ⟨s.data.map Char.toLower⟩

/-- JavaScript `.substring(0, n)`: the first `n` characters. -/
def jsSubstring (s : String) (n : Nat) : String := ⟨s.data.take n⟩

/-- A connected participant, entry of the `connectedUsers` map. -/
structure User where
  id : SocketId
  username : String
deriving DecidableEq, Repr

/-- Kind tag of a conversation-history entry (`type` field in the source). -/
inductive MsgKind where
  | user
  | ai
  | system
deriving DecidableEq, Repr

/-- An entry of `conversationHistory`. -/
structure Message where
  id : String
  kind : MsgKind
  username : String
  content : String
  timestamp : Nat
deriving DecidableEq, Repr

/-- A live prompt in the `prompts` pool. `votes` is the set of voter ids. -/
structure Prompt where
  id : String
  text : String
  submitter : String
  submitterId : SocketId
  votes : Finset SocketId
  timestamp : Nat
deriving DecidableEq

/-- The `clearVoteSession` singleton. -/
structure ClearVoteSession where
  id : Nat
  proposer : String
  yesVotes : Finset SocketId
  noVotes : Finset SocketId
deriving DecidableEq

/-- The `promptVotingSession` singleton (timer handle omitted). -/
structure PromptVotingSession where
  id : Nat
  startTime : Nat
  endTime : Nat
deriving DecidableEq

/-- The process-wide mutable state of the server. -/
structure ServerState where
  connectedUsers : List User
  conversationHistory : List Message
  prompts : List Prompt
  clearVoteSession : Option ClearVoteSession
  typingUsers : Finset SocketId
  promptVotingSession : Option PromptVotingSession
deriving DecidableEq

def initialState : ServerState :=
  { connectedUsers := []
    conversationHistory := []
    prompts := []
    clearVoteSession := none
    typingUsers := ∅
    promptVotingSession := none }

def MAX_HISTORY : Nat := 150
def MAX_PROMPTS : Nat := 20
def PROMPT_VOTING_TIME : Nat := 60 * 1000

/-- Target of an emitted transport event: the originating socket
(`socket.emit`) or every connected socket (`io.emit`). -/
inductive Target where
  | sender
  | broadcast
deriving DecidableEq, Repr

/-- One emitted transport event; structured payloads abstracted to `none`. -/
structure Emit where
  target : Target
  event : String
  message : Option String
deriving DecidableEq, Repr

/-- `connectedUsers.get(socketId)`. -/
def usersGet (us : List User) (sid : SocketId) : Option User :=
  us.find? (fun u => u.id == sid)

/-- `connectedUsers.set(socketId, userData)`: replace in place, else append. -/
def usersSet : List User → User → List User
  | [], u => [u]
  | v :: rest, u => if v.id == u.id then u :: rest else v :: usersSet rest u

/-- `connectedUsers.delete(socketId)`. -/
def usersDelete (us : List User) (sid : SocketId) : List User :=
  us.filter (fun u => u.id ≠ sid)

/-- `isValidUsername`: 2-20 characters from `[a-zA-Z0-9_\- ]` after trim. -/
def isValidUsername (username : String) : Bool :=
  let t := jsTrim username
  2 ≤ t.length && t.length ≤ 20 &&
    t.data.all (fun c => c.isAlphanum || c = '_' || c = '-' || c.isWhitespace)

/-- `manageHistoryLimit`: `while (conversationHistory.length > MAX_HISTORY)
conversationHistory.shift()`. -/
def manageHistoryLimit : List Message → List Message
  | [] => []
  | m :: rest =>
    if MAX_HISTORY < (m :: rest).length then manageHistoryLimit rest
    else m :: rest

/-- `managePromptsLimit`: `while (prompts.length > MAX_PROMPTS)
prompts.shift()`. -/
def managePromptsLimit : List Prompt → List Prompt
  | [] => []
  | p :: rest =>
    if MAX_PROMPTS < (p :: rest).length then managePromptsLimit rest
    else p :: rest

/-- `getRequiredVotes`: `Math.ceil(connectedUsers.size / 2)`. -/
def getRequiredVotes (st : ServerState) : Nat :=
  (st.connectedUsers.length + 1) / 2

/-- The system message announcing a selected prompt (`selectPrompt`). -/
def selectedContent (p : Prompt) : String :=
  let t := p.text
  let v := p.votes.card
  s!"🗳️ Selected prompt: \"{t}\" ({v} votes)"

def AI_ERROR_TEXT : String :=
  "Sorry, I encountered an error processing the selected prompt."

/-- `selectPrompt(prompt)`: clears the voting session, announces the winner,
then awaits the AI gateway. On success the AI reply is appended (history
trimmed) and the pool cleared; on failure (`gateway = none`) the catch block
only clears the typing indicator and broadcasts `ai_error`. -/
def selectPrompt (st : ServerState) (prompt : Prompt) (now : Nat)
    (gateway : Option String) : ServerState × List Emit :=
  let st1 := { st with promptVotingSession := none }
  let pc := selectedContent prompt
  let systemMessage : Message :=
    { id := s!"system_{now}", kind := .system, username := "System",
      content := pc, timestamp := now }
  let st2 := { st1 with
    conversationHistory := st1.conversationHistory ++ [systemMessage] }
  match gateway with
  | some replyText =>
    let aiMessage : Message :=
      { id := s!"ai_{now}", kind := .ai, username := "AI Assistant",
        content := replyText, timestamp := now }
    let st3 := { st2 with
      conversationHistory :=
        manageHistoryLimit (st2.conversationHistory ++ [aiMessage]),
      prompts := [] }
    (st3,
     [⟨.broadcast, "new_message", some pc⟩,
      ⟨.broadcast, "ai_typing", none⟩,
      ⟨.broadcast, "ai_typing", none⟩,
      ⟨.broadcast, "new_message", some replyText⟩,
      ⟨.broadcast, "prompts_list", none⟩,
      ⟨.broadcast, "prompt_voting_end", none⟩])
  | none =>
    (st2,
     [⟨.broadcast, "new_message", some pc⟩,
      ⟨.broadcast, "ai_typing", none⟩,
      ⟨.broadcast, "ai_typing", none⟩,
      ⟨.broadcast, "ai_error", some AI_ERROR_TEXT⟩])

/-- The `join` socket handler. -/
def joinHandler (st : ServerState) (sid : SocketId) (username : String)
    (now : Nat) : ServerState × List Emit :=
  let sanitizedUsername := jsTrim username
  if !isValidUsername sanitizedUsername then
    (st, [⟨.sender, "join_error",
      some ("Username must be 2-20 characters and contain only letters, numbers, spaces, hyphens, and underscores.")⟩])
  else if st.connectedUsers.any
      (fun u => jsToLower u.username == jsToLower sanitizedUsername) then
    (st, [⟨.sender, "join_error",
      some ("Username already taken. Please choose another.")⟩])
  else
    let userData : User := { id := sid, username := sanitizedUsername }
    let jc := s!"{sanitizedUsername} joined the chat"
    let joinMessage : Message :=
      { id := s!"system_{now}", kind := .system, username := "System",
        content := jc, timestamp := now }
    ({ st with
        connectedUsers := usersSet st.connectedUsers userData,
        conversationHistory := st.conversationHistory ++ [joinMessage] },
     [⟨.sender, "join_success", none⟩,
      ⟨.sender, "conversation_history", none⟩,
      ⟨.sender, "prompts_list", none⟩]
     ++ (if st.promptVotingSession.isSome then
          [⟨.sender, "prompt_voting_active", none⟩] else [])
     ++ [⟨.broadcast, "new_message", some jc⟩,
         ⟨.broadcast, "user_joined", none⟩,
         ⟨.broadcast, "user_count_update", none⟩])

/-- The `user_message` socket handler: direct messages to the AI are
disabled, every payload is answered with a `message_blocked` notice. -/
def userMessageHandler (st : ServerState) (_sid : SocketId) (_data : String) :
    ServerState × List Emit :=
  (st, [⟨.sender, "message_blocked",
    some ("Direct messages to AI are not allowed. Please submit a community prompt instead.")⟩])

/-- The `submit_prompt` socket handler. -/
def submitPromptHandler (st : ServerState) (sid : SocketId) (text : String)
    (now : Nat) : ServerState × List Emit :=
  match usersGet st.connectedUsers sid with
  | none => (st, [])
  | some user =>
    if text.isEmpty then (st, [])
    else
      let sanitizedText := jsSubstring (jsTrim text) 500
      if sanitizedText.isEmpty then (st, [])
      else
        let isDuplicate := st.prompts.any (fun p =>
          jsToLower p.text == jsToLower sanitizedText ||
          p.submitter == user.username)
        if isDuplicate then
          (st, [⟨.sender, "prompt_error",
            some ("You already have a pending prompt or this prompt already exists.")⟩])
        else
          let prompt : Prompt :=
            { id := s!"prompt_{now}_{sid}", text := sanitizedText,
              submitter := user.username, submitterId := sid,
              votes := ∅, timestamp := now }
          let prompts1 := managePromptsLimit (st.prompts ++ [prompt])
          let sessionAndEmits :
              Option PromptVotingSession × List Emit :=
            match st.promptVotingSession with
            | none =>
              (some { id := now, startTime := now,
                      endTime := now + PROMPT_VOTING_TIME },
               [⟨.broadcast, "prompt_voting_start", none⟩])
            | some s => (some s, [])
          ({ st with
              prompts := prompts1,
              promptVotingSession := sessionAndEmits.1 },
           sessionAndEmits.2
           ++ [⟨.broadcast, "new_prompt", none⟩,
               ⟨.broadcast, "prompts_list", none⟩,
               ⟨.broadcast, "voting_status_update", none⟩])

/-- The `vote_prompt` socket handler. `gateway` is consumed only when the
vote pushes the prompt to quorum and `selectPrompt` runs. -/
def votePromptHandler (st : ServerState) (sid : SocketId) (promptId : String)
    (now : Nat) (gateway : Option String) : ServerState × List Emit :=
  match usersGet st.connectedUsers sid,
        st.prompts.find? (fun p => p.id == promptId) with
  | some _user, some prompt =>
    if prompt.submitterId == sid then
      (st, [⟨.sender, "vote_error",
        some ("You cannot vote for your own prompt.")⟩])
    else if sid ∈ prompt.votes then
      (st, [⟨.sender, "vote_error",
        some ("You have already voted for this prompt.")⟩])
    else
      let updated := { prompt with votes := insert sid prompt.votes }
      let prompts1 :=
        st.prompts.map (fun p => if p.id == promptId then updated else p)
      let st1 := { st with prompts := prompts1 }
      let base :=
        [⟨Target.broadcast, "prompts_list", (none : Option String)⟩]
        ++ (if st1.promptVotingSession.isSome then
             [⟨Target.broadcast, "voting_status_update", none⟩] else [])
      if getRequiredVotes st1 ≤ updated.votes.card then
        let r := selectPrompt st1 updated now gateway
        (r.1, base ++ r.2)
      else (st1, base)
  | _, _ => (st, [⟨.sender, "vote_error", some ("Prompt not found.")⟩])

/-- `endClearVote(result)`. The `'cancelled'` result falls through the
switch, so no `system_notification` is emitted for it. -/
def endClearVote (st : ServerState) (result : String) :
    ServerState × List Emit :=
  match st.clearVoteSession with
  | none => (st, [])
  | some _ =>
    let message :=
      if result == "approved" then "✅ Clear chat vote passed."
      else if result == "rejected" then "❌ Clear chat vote failed."
      else if result == "timeout" then "⏰ Clear chat vote timed out."
      else ""
    ({ st with clearVoteSession := none },
     (if message ≠ "" then
        [⟨Target.broadcast, "system_notification", some message⟩] else [])
     ++ [⟨Target.broadcast, "clear_vote_end", none⟩])

/-- `executeClearChat()`: wipes history and pool, appends the notice, then
ends the vote session as approved. -/
def executeClearChat (st : ServerState) (now : Nat) :
    ServerState × List Emit :=
  let clearMessage : Message :=
    { id := s!"system_{now}", kind := .system, username := "System",
      content := "🧹 Chat has been cleared by community vote.",
      timestamp := now }
  let st1 := { st with
    conversationHistory := [clearMessage], prompts := [] }
  let r := endClearVote st1 ("approved")
  (r.1,
   [⟨Target.broadcast, "clear_chat", none⟩,
    ⟨Target.broadcast, "new_message", some clearMessage.content⟩,
    ⟨Target.broadcast, "prompts_list", none⟩]
   ++ r.2)

/-- The yes-voter set after a `clear_vote` cast: the caster's previous vote
is removed from the set, then re-added if the new choice is `yes`. -/
def yesAfter (session : ClearVoteSession) (sid : SocketId) (vote : String) :
    Finset SocketId :=
  if vote == "yes" then insert sid (session.yesVotes.erase sid)
  else session.yesVotes.erase sid

/-- The no-voter set after a `clear_vote` cast. -/
def noAfter (session : ClearVoteSession) (sid : SocketId) (vote : String) :
    Finset SocketId :=
  if vote == "yes" then session.noVotes.erase sid
  else insert sid (session.noVotes.erase sid)

/-- The `clear_vote` socket handler. Percentages are the source's
`yesVotes.size / connectedUsers.size` double divisions, taken exactly. -/
def clearVoteHandler (st : ServerState) (sid : SocketId) (vote : String)
    (now : Nat) : ServerState × List Emit :=
  match st.clearVoteSession with
  | none => (st, [])
  | some session =>
    if vote ≠ "yes" ∧ vote ≠ "no" then (st, [])
    else
      match usersGet st.connectedUsers sid with
      | none => (st, [])
      | some _user =>
        let yes1 := yesAfter session sid vote
        let no1 := noAfter session sid vote
        let session1 := { session with yesVotes := yes1, noVotes := no1 }
        let st1 := { st with clearVoteSession := some session1 }
        let totalVotes := yes1.card + no1.card
        let n := st.connectedUsers.length
        let yesPercentage : ℚ := (yes1.card : ℚ) / (n : ℚ)
        let noPercentage : ℚ := (no1.card : ℚ) / (n : ℚ)
        let updEmit :=
          [⟨Target.broadcast, "clear_vote_update", (none : Option String)⟩]
        if 7 / 10 ≤ yesPercentage then
          let r := executeClearChat st1 now
          (r.1, updEmit ++ r.2)
        else if 4 / 10 ≤ noPercentage ∨ totalVotes = n then
          let r := endClearVote st1 ("rejected")
          (r.1, updEmit ++ r.2)
        else (st1, updEmit)

/-- `handleUserDisconnect(socketId)`. -/
def handleUserDisconnect (st : ServerState) (sid : SocketId) (now : Nat) :
    ServerState × List Emit :=
  match usersGet st.connectedUsers sid with
  | none => (st, [])
  | some user =>
    let users1 := usersDelete st.connectedUsers sid
    let typing1 := st.typingUsers.erase sid
    let prompts1 := st.prompts.map
      (fun p => { p with votes := p.votes.erase sid })
    let clearAndEmits : Option ClearVoteSession × List Emit :=
      match st.clearVoteSession with
      | none => (none, [])
      | some session =>
        let session1 := { session with
          yesVotes := session.yesVotes.erase sid,
          noVotes := session.noVotes.erase sid }
        if users1.length = 0 then
          (none, [⟨Target.broadcast, "clear_vote_end", none⟩])
        else (some session1, [])
    let un := user.username
    let lc := s!"{un} left the chat"
    let leaveMessage : Message :=
      { id := s!"system_{now}", kind := .system, username := "System",
        content := lc, timestamp := now }
    ({ st with
        connectedUsers := users1,
        typingUsers := typing1,
        prompts := prompts1,
        clearVoteSession := clearAndEmits.1,
        conversationHistory := st.conversationHistory ++ [leaveMessage] },
     clearAndEmits.2
     ++ (if st.promptVotingSession.isSome then
          [⟨Target.broadcast, "voting_status_update", none⟩] else [])
     ++ [⟨Target.broadcast, "new_message", some lc⟩,
         ⟨Target.broadcast, "user_left", none⟩,
         ⟨Target.broadcast, "user_count_update", none⟩,
         ⟨Target.broadcast, "user_typing", none⟩])

/-- The `Math.max(...prompts.map(p => p.votes.size))` / `prompts.find`
winner selection of `endPromptVoting`, as a pure helper: `none` when the
pool is empty or the maximum vote count is zero. -/
def pickWinner (ps : List Prompt) : Option Prompt :=
  if ps.length = 0 then none
  else
    let maxVotes := (ps.map (fun p => p.votes.card)).foldr max 0
    if 0 < maxVotes then ps.find? (fun p => p.votes.card == maxVotes)
    else none

/-- `endPromptVoting()`: round-timer expiry. -/
def endPromptVoting (st : ServerState) (now : Nat)
    (gateway : Option String) : ServerState × List Emit :=
  match st.promptVotingSession with
  | none => (st, [])
  | some _ =>
    let st1 := { st with promptVotingSession := none }
    if st1.prompts.length ≠ 0 then
      match pickWinner st1.prompts with
      | some topPrompt =>
        let r := selectPrompt st1 topPrompt now gateway
        (r.1, r.2 ++ [⟨Target.broadcast, "prompt_voting_end", none⟩])
      | none =>
        ({ st1 with prompts := [] },
         [⟨Target.broadcast, "prompts_list", none⟩,
          ⟨Target.broadcast, "prompt_voting_end",
            some ("No votes received. Prompts cleared.")⟩,
          ⟨Target.broadcast, "prompt_voting_end", none⟩])
    else (st1, [⟨Target.broadcast, "prompt_voting_end", none⟩])

/-- The prompt-pool uniqueness invariant actually enforced by the
`submit_prompt` duplicate check: no two live prompts have the same
case-folded text and no two live prompts have the same submitter display
name. -/
def promptPoolInv (ps : List Prompt) : Prop :=
  ps.Pairwise (fun a b =>
    jsToLower a.text ≠ jsToLower b.text ∧ a.submitter ≠ b.submitter)

instance (ps : List Prompt) : Decidable (promptPoolInv ps) :=
  List.instDecidablePairwise ps

/- Concrete states used by counterexamples and witnesses. -/

/-- A prompt submitted by socket 1 ("al") that socket 2 has voted for. -/
def cexPrompt : Prompt :=
  { id := "prompt_0_1", text := "hi", submitter := "al", submitterId := 1,
    votes := {2}, timestamp := 0 }

/-- Two connected users, one voted-for prompt, a running voting round. -/
def cexVotingState : ServerState :=
  { connectedUsers := [{ id := 1, username := "al" }, { id := 2, username := "bo" }]
    conversationHistory := []
    prompts := [cexPrompt]
    clearVoteSession := none
    typingUsers := ∅
    promptVotingSession := some { id := 0, startTime := 0, endTime := 60000 } }

def fullHistoryMsg : Message :=
  { id := "m", kind := .system, username := "System", content := "x",
    timestamp := 0 }

/-- A state whose conversation log is exactly at the cap. -/
def fullHistoryState : ServerState :=
  { initialState with conversationHistory := List.replicate 150 fullHistoryMsg }

/-- Three connected users and a prompt one vote short of quorum. -/
def c4State : ServerState :=
  { connectedUsers :=
      [{ id := 1, username := "al" }, { id := 2, username := "bo" },
       { id := 3, username := "ca" }]
    conversationHistory := []
    prompts := [cexPrompt]
    clearVoteSession := none
    typingUsers := ∅
    promptVotingSession := some { id := 0, startTime := 0, endTime := 60000 } }

def c5p1 : Prompt :=
  { id := "p1", text := "aa", submitter := "u1", submitterId := 1,
    votes := {2, 3}, timestamp := 0 }

def c5p2 : Prompt :=
  { id := "p2", text := "bb", submitter := "u2", submitterId := 2,
    votes := {1, 3}, timestamp := 1 }

def c5p3 : Prompt :=
  { id := "p3", text := "cc", submitter := "u3", submitterId := 3,
    votes := ∅, timestamp := 2 }

/-- Round-expiry state with prompt votes `[2, 2, 0]` in submission order. -/
def c5State : ServerState :=
  { connectedUsers :=
      [{ id := 1, username := "u1" }, { id := 2, username := "u2" },
       { id := 3, username := "u3" }]
    conversationHistory := []
    prompts := [c5p1, c5p2, c5p3]
    clearVoteSession := none
    typingUsers := ∅
    promptVotingSession := some { id := 0, startTime := 0, endTime := 60000 } }

/-- Round-expiry state in which every prompt has zero votes. -/
def c6State : ServerState :=
  { c5State with
      prompts :=
        [{ c5p1 with votes := ∅ }, { c5p2 with votes := ∅ }, c5p3] }

/-- An active clear-vote session with three yes votes already cast. -/
def c7Session : ClearVoteSession :=
  { id := 0, proposer := "u1", yesVotes := {1, 2, 3}, noVotes := ∅ }

/-- Five connected users and the active clear-vote session. -/
def c7State : ServerState :=
  { connectedUsers :=
      [{ id := 1, username := "u1" }, { id := 2, username := "u2" },
       { id := 3, username := "u3" }, { id := 4, username := "u4" },
       { id := 5, username := "u5" }]
    conversationHistory :=
      [{ id := "h", kind := .user, username := "u1", content := "old",
         timestamp := 0 }]
    prompts := []
    clearVoteSession := some c7Session
    typingUsers := ∅
    promptVotingSession := none }

/- The C9 trace: socket 1 joins as "al", submits a prompt, joins again as
"bo" (the join handler has no already-joined guard and `Map.set`
overwrites), then submits a second prompt — after which connection 1 owns
two live prompts. -/

def c9State1 : ServerState :=
  { connectedUsers := [{ id := 1, username := "al" }]
    conversationHistory :=
      [{ id := "system_10", kind := .system, username := "System",
         content := "al joined the chat", timestamp := 10 }]
    prompts := []
    clearVoteSession := none
    typingUsers := ∅
    promptVotingSession := none }

def c9Prompt1 : Prompt :=
  { id := "prompt_11_1", text := "hi", submitter := "al", submitterId := 1,
    votes := ∅, timestamp := 11 }

def c9State2 : ServerState :=
  { c9State1 with
      prompts := [c9Prompt1],
      promptVotingSession := some { id := 11, startTime := 11, endTime := 60011 } }

def c9State3 : ServerState :=
  { c9State2 with
      connectedUsers := [{ id := 1, username := "bo" }],
      conversationHistory := c9State2.conversationHistory ++
        [{ id := "system_12", kind := .system, username := "System",
           content := "bo joined the chat", timestamp := 12 }] }

def c9Prompt2 : Prompt :=
  { id := "prompt_13_1", text := "yo", submitter := "bo", submitterId := 1,
    votes := ∅, timestamp := 13 }

def c9State4 : ServerState :=
  { c9State3 with prompts := [c9Prompt1, c9Prompt2] }

/-- The state reached by the four-step C9 trace from the empty server. -/
def c9Final : ServerState :=
  (submitPromptHandler (joinHandler (submitPromptHandler
      (joinHandler initialState 1 "al" 10).1 1 "hi" 11).1 1 "bo" 12).1
      1 "yo" 13).1

/- Helper lemmas. -/

theorem manageHistoryLimit_eq_drop (h : List Message) :
    manageHistoryLimit h = h.drop (h.length - MAX_HISTORY) := by
  induction h with
  | nil => rfl
  | cons m rest ih =>
    rw [manageHistoryLimit]
    split
    · next hgt =>
      rw [ih]
      have hlen : (m :: rest).length = rest.length + 1 := rfl
      have h1 : (m :: rest).length - MAX_HISTORY
          = (rest.length - MAX_HISTORY) + 1 := by
        simp only [hlen] at hgt ⊢
        omega
      rw [h1, List.drop_succ_cons]
    · next hle =>
      have : (m :: rest).length - MAX_HISTORY = 0 := by
        simp only [List.length_cons] at hle ⊢
        omega
      rw [this, List.drop_zero]

theorem managePromptsLimit_eq_drop (ps : List Prompt) :
    managePromptsLimit ps = ps.drop (ps.length - MAX_PROMPTS) := by
  induction ps with
  | nil => rfl
  | cons p rest ih =>
    rw [managePromptsLimit]
    split
    · next hgt =>
      rw [ih]
      have h1 : (p :: rest).length - MAX_PROMPTS
          = (rest.length - MAX_PROMPTS) + 1 := by
        simp only [List.length_cons] at hgt ⊢
        omega
      rw [h1, List.drop_succ_cons]
    · next hle =>
      have : (p :: rest).length - MAX_PROMPTS = 0 := by
        simp only [List.length_cons] at hle ⊢
        omega
      rw [this, List.drop_zero]

theorem find?_first {α : Type} (p : α → Bool) :
    ∀ (l : List α) (a : α), l.find? p = some a →
      ∃ i : Nat, l.get? i = some a ∧ p a = true ∧
        ∀ j, j < i → ∀ b, l.get? j = some b → p b = false := by
  intro l
  induction l with
  | nil => intro a h; simp at h
  | cons x xs ih =>
    intro a h
    cases hx : p x with
    | true =>
      rw [List.find?_cons_of_pos _ hx] at h
      have hxa : x = a := by injection h
      subst hxa
      exact ⟨0, rfl, hx, fun j hj => absurd hj (by omega)⟩
    | false =>
      rw [List.find?_cons_of_neg _ (by simp [hx])] at h
      obtain ⟨i, hi, hpa, hbefore⟩ := ih a h
      refine ⟨i + 1, hi, hpa, ?_⟩
      intro j hj b hb
      cases j with
      | zero =>
        have hbx : b = x := by
          simp only [List.get?_cons_zero] at hb
          exact (Option.some.inj hb).symm
        rw [hbx]; exact hx
      | succ j0 =>
        exact hbefore j0 (by omega) b (by simpa using hb)

theorem le_foldr_max (l : List Nat) (x : Nat) (hx : x ∈ l) :
    x ≤ l.foldr max 0 := by
  induction l with
  | nil => cases hx
  | cons y ys ih =>
    rcases List.mem_cons.1 hx with rfl | hmem
    · exact le_max_left _ _
    · exact le_trans (ih hmem) (le_max_right _ _)

theorem foldr_max_le (l : List Nat) (k : Nat) (h : ∀ x ∈ l, x ≤ k) :
    l.foldr max 0 ≤ k := by
  induction l with
  | nil => exact Nat.zero_le k
  | cons y ys ih =>
    simp only [List.foldr_cons]
    exact max_le (h y (List.mem_cons_self y ys))
      (ih fun x hx => h x (List.mem_cons_of_mem y hx))

theorem foldr_max_mem (l : List Nat) :
    l.foldr max 0 = 0 ∨ l.foldr max 0 ∈ l := by
  induction l with
  | nil => exact Or.inl rfl
  | cons y ys ih =>
    simp only [List.foldr_cons]
    rcases Nat.le_total y (ys.foldr max 0) with hle | hle
    · rw [max_eq_right hle]
      rcases ih with h0 | hmem
      · exact Or.inl h0
      · exact Or.inr (List.mem_cons_of_mem y hmem)
    · rw [max_eq_left hle]
      exact Or.inr (List.mem_cons_self y ys)

theorem mem_drop_append {α : Type} (l rest : List α) (x : α) :
    ∀ k, k ≤ l.length → x ∈ (l ++ x :: rest).drop k := by
  induction l with
  | nil =>
    intro k hk
    have : k = 0 := Nat.le_zero.1 hk
    subst this
    exact List.mem_cons_self x rest
  | cons y ys ih =>
    intro k hk
    cases k with
    | zero =>
      have := ih 0 (Nat.zero_le _)
      simp only [List.drop_zero] at this ⊢
      exact List.mem_cons_of_mem y this
    | succ k0 =>
      simpa using ih k0 (by simpa using hk)

theorem c9_step1 : (joinHandler initialState 1 "al" 10).1 = c9State1 := by
  decide

theorem c9_step2 : (submitPromptHandler c9State1 1 "hi" 11).1 = c9State2 := by
  decide

theorem c9_step3 : (joinHandler c9State2 1 "bo" 12).1 = c9State3 := by
  decide

theorem c9_step4 : (submitPromptHandler c9State3 1 "yo" 13).1 = c9State4 := by
  decide

theorem c9Final_eq : c9Final = c9State4 := by
  unfold c9Final
  rw [c9_step1, c9_step2, c9_step3, c9_step4]

/- Claim theorems. -/

/-- C10: for every state, socket and payload, the `user_message` handler
emits a `message_blocked` notice to the sender only and leaves the
connected-users map, the conversation history, the prompt pool, the
voting-round singleton, the clear-vote session and the typing set all
unchanged. -/
theorem user_message_blocked_frame (st : ServerState) (sid : SocketId)
    (data : String) :
    (userMessageHandler st sid data).1.connectedUsers = st.connectedUsers ∧
    (userMessageHandler st sid data).1.conversationHistory
      = st.conversationHistory ∧
    (userMessageHandler st sid data).1.prompts = st.prompts ∧
    (userMessageHandler st sid data).1.promptVotingSession
      = st.promptVotingSession ∧
    (userMessageHandler st sid data).1.clearVoteSession
      = st.clearVoteSession ∧
    (userMessageHandler st sid data).1.typingUsers = st.typingUsers ∧
    (userMessageHandler st sid data).2
      = [⟨.sender, "message_blocked",
          some ("Direct messages to AI are not allowed. Please submit a community prompt instead.")⟩] :=
  ⟨rfl, rfl, rfl, rfl, rfl, rfl, rfl⟩

/-- C1 counterexample: with a voted-for prompt in the pool and the gateway
failing, `selectPrompt` ends the round but does **not** empty the prompt
pool — the pool is not "cleared exactly as on success". -/
theorem select_prompt_failure_pool_not_cleared :
    (selectPrompt cexVotingState cexPrompt 5 none).1.prompts = [cexPrompt] ∧
    cexVotingState.prompts ≠ [] ∧
    (selectPrompt cexVotingState cexPrompt 5 none).1.promptVotingSession
      = none := by
  refine ⟨rfl, ?_, rfl⟩
  decide

/-- C1 amended: when the AI gateway call fails, the voting-round singleton
is still cleared (it is nulled before the gateway call, so the system is
never stuck in `Resolving`) and a distinct `ai_error` notification is
broadcast, but the prompt pool is left exactly as it was — it is **not**
emptied; only the selection notice is appended to the history. -/
theorem select_prompt_failure_round_ends (st : ServerState) (p : Prompt)
    (now : Nat) :
    (selectPrompt st p now none).1.promptVotingSession = none ∧
    (selectPrompt st p now none).1.prompts = st.prompts ∧
    (selectPrompt st p now none).1.conversationHistory
      = st.conversationHistory ++
        [{ id := s!"system_{now}", kind := .system, username := "System",
           content := selectedContent p, timestamp := now }] ∧
    Emit.mk .broadcast ("ai_error") (some AI_ERROR_TEXT)
      ∈ (selectPrompt st p now none).2 := by
  refine ⟨rfl, rfl, rfl, ?_⟩
  simp [selectPrompt]

/-- C2 counterexample: with the conversation log exactly at the cap of 150,
a user join appends a system message without trimming, so the log length
becomes 151 and exceeds the cap. -/
theorem join_exceeds_history_cap :
    fullHistoryState.conversationHistory.length = MAX_HISTORY ∧
    MAX_HISTORY
      < ((joinHandler fullHistoryState 1 "al" 0).1.conversationHistory).length := by
  constructor
  · decide
  · decide

/-- C2 amended: the conversation-log cap is enforced only where
`manageHistoryLimit` is called — after appending the AI reply in
`selectPrompt`. When it runs, it drops exactly the oldest entries (the
remainder is the suffix `drop (length - cap)`, so FIFO order is preserved)
and leaves at most 150 entries; in particular the history after a
successful `selectPrompt` never exceeds the cap. Appends from join, leave
and the selection notice do not trim. -/
theorem history_trim_evicts_oldest (h : List Message) (st : ServerState)
    (p : Prompt) (now : Nat) (reply : String) :
    manageHistoryLimit h = h.drop (h.length - MAX_HISTORY) ∧
    (manageHistoryLimit h).length ≤ MAX_HISTORY ∧
    ((selectPrompt st p now (some reply)).1.conversationHistory).length
      ≤ MAX_HISTORY := by
  refine ⟨manageHistoryLimit_eq_drop h, ?_, ?_⟩
  · rw [manageHistoryLimit_eq_drop h, List.length_drop]
    omega
  · show (manageHistoryLimit _).length ≤ MAX_HISTORY
    rw [manageHistoryLimit_eq_drop, List.length_drop]
    omega

/-- C3 counterexample: participant 1 is connected and owns the live prompt
`cexPrompt`; after `handleUserDisconnect 1` the participant is removed but
their prompt is still live in the pool, so a live prompt is still owned by
the disconnected participant. -/
theorem disconnect_keeps_own_prompt :
    usersGet cexVotingState.connectedUsers 1 = some { id := 1, username := "al" } ∧
    usersGet ((handleUserDisconnect cexVotingState 1 7).1.connectedUsers) 1 = none ∧
    ((handleUserDisconnect cexVotingState 1 7).1.prompts.any
      (fun p => p.submitterId == 1)) = true := by
  refine ⟨rfl, rfl, ?_⟩
  decide

/-- C3 amended: disconnect removes the participant's id from the voter set
of every live prompt (and only edits the voter sets), but it does not
release the prompt they submitted: the pool keeps exactly the same prompts,
each with the disconnected id erased from its votes. -/
theorem disconnect_strips_votes_only (st : ServerState) (sid : SocketId)
    (now : Nat) (u : User)
    (hu : usersGet st.connectedUsers sid = some u) :
    (handleUserDisconnect st sid now).1.prompts
      = st.prompts.map (fun p => { p with votes := p.votes.erase sid }) ∧
    ∀ p ∈ (handleUserDisconnect st sid now).1.prompts, sid ∉ p.votes := by
  have hstate : (handleUserDisconnect st sid now).1.prompts
      = st.prompts.map (fun p => { p with votes := p.votes.erase sid }) := by
    unfold handleUserDisconnect
    rw [hu]
  refine ⟨hstate, ?_⟩
  intro p hp
  rw [hstate] at hp
  obtain ⟨q, _hq, rfl⟩ := List.mem_map.1 hp
  exact Finset.not_mem_erase sid q.votes

/-- C3 amended, witness: disconnecting the voter (socket 2) of
`cexVotingState` leaves the pool with the same prompt, its vote stripped. -/
theorem disconnect_strips_votes_only_witness :
    (handleUserDisconnect cexVotingState 2 7).1.prompts
      = cexVotingState.prompts.map
          (fun p => { p with votes := p.votes.erase 2 }) ∧
    ∀ p ∈ (handleUserDisconnect cexVotingState 2 7).1.prompts,
      (2 : SocketId) ∉ p.votes :=
  disconnect_strips_votes_only cexVotingState 2 7
    { id := 2, username := "bo" } (by decide)

/-- C4: an accepted vote that brings the prompt's voter set to
`requiredVotes = ceil(connected/2)` or beyond resolves the round inside the
same handler: the voting-round singleton is cleared and the selection
notice for the updated prompt is appended to the conversation log, without
waiting for the round timer. -/
theorem vote_quorum_immediate (st : ServerState) (sid : SocketId)
    (pid : String) (now : Nat) (gw : Option String) (u : User) (p : Prompt)
    (hu : usersGet st.connectedUsers sid = some u)
    (hp : st.prompts.find? (fun q => q.id == pid) = some p)
    (hself : p.submitterId ≠ sid)
    (hdup : sid ∉ p.votes)
    (hq : getRequiredVotes st ≤ (insert sid p.votes).card) :
    (votePromptHandler st sid pid now gw).1.promptVotingSession = none ∧
    (∃ m ∈ (votePromptHandler st sid pid now gw).1.conversationHistory,
      m.content = selectedContent { p with votes := insert sid p.votes }) ∧
    st.connectedUsers.length ≤ 2 * getRequiredVotes st ∧
    2 * getRequiredVotes st ≤ st.connectedUsers.length + 1 := by
  have hne1 : ¬((p.submitterId == sid) = true) := by simp [hself]
  have hq2 : (st.connectedUsers.length + 1) / 2 ≤ (insert sid p.votes).card :=
    hq
  have hceil : st.connectedUsers.length ≤ 2 * getRequiredVotes st ∧
      2 * getRequiredVotes st ≤ st.connectedUsers.length + 1 := by
    unfold getRequiredVotes
    omega
  unfold votePromptHandler
  rw [hu, hp]
  dsimp only [getRequiredVotes]
  rw [if_neg hne1, if_neg hdup, if_pos hq2]
  refine ⟨?_, ?_, hceil.1, hceil.2⟩
  · rcases gw with _ | r <;> rfl
  · rcases gw with _ | r
    · exact ⟨_, List.mem_append_right _ (List.mem_singleton_self _), rfl⟩
    · dsimp only [selectPrompt]
      rw [manageHistoryLimit_eq_drop, List.append_assoc, List.singleton_append]
      refine ⟨_, mem_drop_append _ _ _ _ ?_, rfl⟩
      simp only [List.length_append, List.length_cons, List.length_nil,
        MAX_HISTORY]
      omega

/-- C4 witness: with 3 connected participants (`requiredVotes = 2`), the
second vote on the pooled prompt resolves the round in the same handler. -/
theorem vote_quorum_immediate_witness :
    (votePromptHandler c4State 3 "prompt_0_1" 9 (some ("ok"))).1.promptVotingSession
      = none ∧
    (∃ m ∈ (votePromptHandler c4State 3 "prompt_0_1" 9
        (some ("ok"))).1.conversationHistory,
      m.content = selectedContent { cexPrompt with votes := insert 3 cexPrompt.votes }) ∧
    c4State.connectedUsers.length ≤ 2 * getRequiredVotes c4State ∧
    2 * getRequiredVotes c4State ≤ c4State.connectedUsers.length + 1 :=
  vote_quorum_immediate c4State 3 "prompt_0_1" 9 (some ("ok"))
    { id := 3, username := "ca" } cexPrompt (by decide) (by decide)
    (by decide) (by decide) (by decide)

/-- C5: on round-timer expiry with a non-empty pool containing at least one
voted-for prompt, the selected winner has the maximum vote count and, among
prompts tied at the maximum, the lowest insertion index (every
earlier-submitted prompt has strictly fewer votes); the winner's selection
notice is appended to the conversation log. -/
theorem round_expiry_selects_max_earliest (st : ServerState) (now : Nat)
    (gw : Option String) (s : PromptVotingSession)
    (hs : st.promptVotingSession = some s)
    (hne : st.prompts ≠ [])
    (hv : ∃ p ∈ st.prompts, 0 < p.votes.card) :
    ∃ w i, pickWinner st.prompts = some w ∧
      st.prompts.get? i = some w ∧
      (∀ q ∈ st.prompts, q.votes.card ≤ w.votes.card) ∧
      (∀ j, j < i → ∀ q, st.prompts.get? j = some q →
        q.votes.card < w.votes.card) ∧
      (∃ m ∈ (endPromptVoting st now gw).1.conversationHistory,
        m.content = selectedContent w) := by
  obtain ⟨pv, hpv, hpvpos⟩ := hv
  set M := (st.prompts.map (fun p => p.votes.card)).foldr max 0 with hM
  have hMpos : 0 < M := lt_of_lt_of_le hpvpos
    (le_foldr_max _ _ (List.mem_map_of_mem _ hpv))
  have hMle : ∀ q ∈ st.prompts, q.votes.card ≤ M := fun q hq =>
    le_foldr_max _ _ (List.mem_map_of_mem _ hq)
  have hfind : ∃ w, st.prompts.find? (fun p => p.votes.card == M) = some w := by
    rcases foldr_max_mem (st.prompts.map (fun p => p.votes.card)) with h0 | hmem
    · omega
    · obtain ⟨q, hq, hqM⟩ := List.mem_map.1 hmem
      have : (st.prompts.find? (fun p => p.votes.card == M)).isSome := by
        rw [List.find?_isSome]
        exact ⟨q, hq, by simp [hqM]⟩
      obtain ⟨w, hw⟩ := Option.isSome_iff_exists.1 this
      exact ⟨w, hw⟩
  obtain ⟨w, hw⟩ := hfind
  have hpick : pickWinner st.prompts = some w := by
    unfold pickWinner
    rw [if_neg (by simp [hne]), ← hM, if_pos hMpos, hw]
  obtain ⟨i, hi, hpw, hbefore⟩ := find?_first _ _ _ hw
  have hwM : w.votes.card = M := by simpa using hpw
  refine ⟨w, i, hpick, hi, fun q hq => hwM ▸ hMle q hq, ?_, ?_⟩
  · intro j hj q hq
    have hqlt : q.votes.card ≠ M := by
      have := hbefore j hj q hq
      simpa using this
    have hqle : q.votes.card ≤ M := hMle q (List.get?_mem hq)
    omega
  · unfold endPromptVoting
    rw [hs]
    dsimp only
    rw [if_pos (by simpa using hne)]
    have hpick1 : pickWinner
        ({ st with promptVotingSession := none } : ServerState).prompts
        = some w := hpick
    rw [hpick1]
    rcases gw with _ | r
    · exact ⟨_, List.mem_append_right _ (List.mem_singleton_self _), rfl⟩
    · dsimp only [selectPrompt]
      rw [manageHistoryLimit_eq_drop, List.append_assoc, List.singleton_append]
      refine ⟨_, mem_drop_append _ _ _ _ ?_, rfl⟩
      simp only [List.length_append, List.length_cons, List.length_nil,
        MAX_HISTORY]
      omega

/-- C5 witness: the spec's example — prompts with votes `[2, 2, 0]` in
submission order; the first of the tied leaders (`c5p1`) wins. -/
theorem round_expiry_selects_max_earliest_witness :
    pickWinner c5State.prompts = some c5p1 ∧
    (∃ w i, pickWinner c5State.prompts = some w ∧
      c5State.prompts.get? i = some w ∧
      (∀ q ∈ c5State.prompts, q.votes.card ≤ w.votes.card) ∧
      (∀ j, j < i → ∀ q, c5State.prompts.get? j = some q →
        q.votes.card < w.votes.card) ∧
      (∃ m ∈ (endPromptVoting c5State 9 (some ("ok"))).1.conversationHistory,
        m.content = selectedContent w)) :=
  ⟨by decide,
   round_expiry_selects_max_earliest c5State 9 (some ("ok"))
     { id := 0, startTime := 0, endTime := 60000 } (by decide) (by decide)
     ⟨c5p1, by decide, by decide⟩⟩

/-- C6: on round-timer expiry with a non-empty pool in which every prompt
has zero votes, no winner is picked and no selection notice or AI reply is
appended (the history is unchanged, so no AI call outcome is recorded);
the pool is emptied, the round singleton is cleared, and the distinct
"No votes received" notice is broadcast. -/
theorem round_expiry_no_votes (st : ServerState) (now : Nat)
    (gw : Option String) (s : PromptVotingSession)
    (hs : st.promptVotingSession = some s)
    (hne : st.prompts ≠ [])
    (hz : ∀ p ∈ st.prompts, p.votes.card = 0) :
    pickWinner st.prompts = none ∧
    (endPromptVoting st now gw).1.prompts = [] ∧
    (endPromptVoting st now gw).1.promptVotingSession = none ∧
    (endPromptVoting st now gw).1.conversationHistory
      = st.conversationHistory ∧
    Emit.mk .broadcast ("prompt_voting_end")
        (some ("No votes received. Prompts cleared."))
      ∈ (endPromptVoting st now gw).2 := by
  have hM : (st.prompts.map (fun p => p.votes.card)).foldr max 0 = 0 := by
    have := foldr_max_le (st.prompts.map (fun p => p.votes.card)) 0 ?_
    · omega
    · intro x hx
      obtain ⟨q, hq, rfl⟩ := List.mem_map.1 hx
      exact le_of_eq (hz q hq)
  have hpick : pickWinner st.prompts = none := by
    unfold pickWinner
    rw [if_neg (by simp [hne]), hM]
    simp
  refine ⟨hpick, ?_, ?_, ?_, ?_⟩ <;>
    · unfold endPromptVoting
      rw [hs]
      dsimp only
      rw [if_pos (by simpa using hne)]
      have hpick1 : pickWinner
          ({ st with promptVotingSession := none } : ServerState).prompts
          = none := hpick
      rw [hpick1]
      try simp

/-- C6 witness: a concrete expiry with three zero-vote prompts. -/
theorem round_expiry_no_votes_witness :
    pickWinner c6State.prompts = none ∧
    (endPromptVoting c6State 9 (some ("ok"))).1.prompts = [] ∧
    (endPromptVoting c6State 9 (some ("ok"))).1.promptVotingSession = none ∧
    (endPromptVoting c6State 9 (some ("ok"))).1.conversationHistory
      = c6State.conversationHistory ∧
    Emit.mk .broadcast ("prompt_voting_end")
        (some ("No votes received. Prompts cleared."))
      ∈ (endPromptVoting c6State 9 (some ("ok"))).2 :=
  round_expiry_no_votes c6State 9 (some ("ok"))
    { id := 0, startTime := 0, endTime := 60000 } (by decide) (by decide)
    (by decide)

theorem endClearVote_fst (st : ServerState) (res : String) :
    (endClearVote st res).1 = { st with clearVoteSession := none } := by
  unfold endClearVote
  cases h : st.clearVoteSession
  · dsimp only
    rw [← h]
  · rfl

theorem executeClearChat_fst (st : ServerState) (now : Nat) :
    (executeClearChat st now).1
      = { st with
          conversationHistory :=
            [{ id := s!"system_{now}", kind := .system, username := "System",
               content := "🧹 Chat has been cleared by community vote.",
               timestamp := now }],
          prompts := [], clearVoteSession := none } := by
  unfold executeClearChat
  dsimp only
  rw [endClearVote_fst]

/-- C7: a cast clear-chat vote is resolved immediately against the current
connected count n: if the updated yes fraction is ≥ 0.70 the vote is
approved and the conversation log is wiped to just the clear notice;
otherwise if the updated no fraction is ≥ 0.40 or every vote cast equals n,
the vote is rejected (session cleared, log untouched); otherwise the
session stays pending with the updated tallies. -/
theorem clear_vote_thresholds (st : ServerState) (sid : SocketId)
    (v : String) (now : Nat) (cs : ClearVoteSession) (u : User)
    (hcs : st.clearVoteSession = some cs)
    (hu : usersGet st.connectedUsers sid = some u)
    (hv : v = "yes" ∨ v = "no") :
    ((70 : ℚ) / 100 ≤ ((yesAfter cs sid v).card : ℚ)
        / (st.connectedUsers.length : ℚ) →
      (clearVoteHandler st sid v now).1.conversationHistory
        = [{ id := s!"system_{now}", kind := .system, username := "System",
             content := "🧹 Chat has been cleared by community vote.",
             timestamp := now }] ∧
      (clearVoteHandler st sid v now).1.clearVoteSession = none) ∧
    (¬ ((70 : ℚ) / 100 ≤ ((yesAfter cs sid v).card : ℚ)
        / (st.connectedUsers.length : ℚ)) →
      (((40 : ℚ) / 100 ≤ ((noAfter cs sid v).card : ℚ)
            / (st.connectedUsers.length : ℚ) ∨
          (yesAfter cs sid v).card + (noAfter cs sid v).card
            = st.connectedUsers.length) →
        (clearVoteHandler st sid v now).1.clearVoteSession = none ∧
        (clearVoteHandler st sid v now).1.conversationHistory
          = st.conversationHistory) ∧
      (¬ ((40 : ℚ) / 100 ≤ ((noAfter cs sid v).card : ℚ)
            / (st.connectedUsers.length : ℚ)) →
        ¬ ((yesAfter cs sid v).card + (noAfter cs sid v).card
            = st.connectedUsers.length) →
        (clearVoteHandler st sid v now).1.clearVoteSession
          = some { cs with yesVotes := yesAfter cs sid v,
                           noVotes := noAfter cs sid v } ∧
        (clearVoteHandler st sid v now).1.conversationHistory
          = st.conversationHistory)) := by
  have hvv : ¬ (v ≠ "yes" ∧ v ≠ "no") := by
    rcases hv with rfl | rfl <;> simp
  have h70 : ((70 : ℚ) / 100) = 7 / 10 := by norm_num
  have h40 : ((40 : ℚ) / 100) = 4 / 10 := by norm_num
  rw [h70, h40]
  unfold clearVoteHandler
  rw [hcs]
  dsimp only
  rw [if_neg hvv, hu]
  dsimp only
  split_ifs with hA hB
  · refine ⟨fun _ => ⟨?_, ?_⟩, fun hcon => absurd hA hcon⟩ <;>
      rw [executeClearChat_fst]
  · refine ⟨fun h => absurd h hA, fun _ => ⟨fun _ => ⟨?_, ?_⟩, ?_⟩⟩
    · rw [endClearVote_fst]
    · rw [endClearVote_fst]
    · intro hn1 hn2
      exact hB.elim (fun h => absurd h hn1) (fun h => absurd h hn2)
  · exact ⟨fun h => absurd h hA,
      fun _ => ⟨fun hbr => absurd hbr hB, fun _ _ => ⟨rfl, rfl⟩⟩⟩

/-- C7 witness: 5 connected users, yes votes {1,2,3} already cast, user 4
casts yes — the instantiated resolution clauses for that state. -/
theorem clear_vote_thresholds_witness :
    ((70 : ℚ) / 100 ≤ ((yesAfter c7Session 4 "yes").card : ℚ)
        / (c7State.connectedUsers.length : ℚ) →
      (clearVoteHandler c7State 4 "yes" 9).1.conversationHistory
        = [{ id := "system_9", kind := .system, username := "System",
             content := "🧹 Chat has been cleared by community vote.",
             timestamp := 9 }] ∧
      (clearVoteHandler c7State 4 "yes" 9).1.clearVoteSession = none) ∧
    (¬ ((70 : ℚ) / 100 ≤ ((yesAfter c7Session 4 "yes").card : ℚ)
        / (c7State.connectedUsers.length : ℚ)) →
      (((40 : ℚ) / 100 ≤ ((noAfter c7Session 4 "yes").card : ℚ)
            / (c7State.connectedUsers.length : ℚ) ∨
          (yesAfter c7Session 4 "yes").card + (noAfter c7Session 4 "yes").card
            = c7State.connectedUsers.length) →
        (clearVoteHandler c7State 4 "yes" 9).1.clearVoteSession = none ∧
        (clearVoteHandler c7State 4 "yes" 9).1.conversationHistory
          = c7State.conversationHistory) ∧
      (¬ ((40 : ℚ) / 100 ≤ ((noAfter c7Session 4 "yes").card : ℚ)
            / (c7State.connectedUsers.length : ℚ)) →
        ¬ ((yesAfter c7Session 4 "yes").card + (noAfter c7Session 4 "yes").card
            = c7State.connectedUsers.length) →
        (clearVoteHandler c7State 4 "yes" 9).1.clearVoteSession
          = some { c7Session with yesVotes := yesAfter c7Session 4 "yes",
                                  noVotes := noAfter c7Session 4 "yes" } ∧
        (clearVoteHandler c7State 4 "yes" 9).1.conversationHistory
          = c7State.conversationHistory)) :=
  clear_vote_thresholds c7State 4 "yes" 9 c7Session
    { id := 4, username := "u4" } (by decide) (by decide) (Or.inl rfl)

/-- C8: a prompt vote rejected for self-voting or double-voting reports a
`vote_error` to the originating socket only and changes nothing: the whole
server state (in particular every prompt's voter set) is exactly as
before. -/
theorem vote_rejection_no_state_change (st : ServerState) (sid : SocketId)
    (pid : String) (now : Nat) (gw : Option String) (u : User) (p : Prompt)
    (hu : usersGet st.connectedUsers sid = some u)
    (hp : st.prompts.find? (fun q => q.id == pid) = some p)
    (hrej : p.submitterId = sid ∨ sid ∈ p.votes) :
    (votePromptHandler st sid pid now gw).1 = st ∧
    ((votePromptHandler st sid pid now gw).2
        = [⟨.sender, "vote_error", some ("You cannot vote for your own prompt.")⟩] ∨
     (votePromptHandler st sid pid now gw).2
        = [⟨.sender, "vote_error", some ("You have already voted for this prompt.")⟩]) := by
  unfold votePromptHandler
  rw [hu, hp]
  dsimp only
  by_cases hself : p.submitterId = sid
  · rw [if_pos (by simp [hself])]
    exact ⟨rfl, Or.inl rfl⟩
  · have hmem : sid ∈ p.votes := hrej.resolve_left hself
    rw [if_neg (by simp [hself]), if_pos hmem]
    exact ⟨rfl, Or.inr rfl⟩

/-- C8 witness: socket 1 voting for its own prompt in `c4State` is rejected
with no state change. -/
theorem vote_rejection_no_state_change_witness :
    (votePromptHandler c4State 1 "prompt_0_1" 9 none).1 = c4State ∧
    ((votePromptHandler c4State 1 "prompt_0_1" 9 none).2
        = [⟨.sender, "vote_error", some ("You cannot vote for your own prompt.")⟩] ∨
     (votePromptHandler c4State 1 "prompt_0_1" 9 none).2
        = [⟨.sender, "vote_error", some ("You have already voted for this prompt.")⟩]) :=
  vote_rejection_no_state_change c4State 1 "prompt_0_1" 9 none
    { id := 1, username := "al" } cexPrompt (by decide) (by decide)
    (Or.inl (by decide))

/-- C9 counterexample: from the empty server, socket 1 joins as "al",
submits a prompt, joins again as "bo" (the join handler has no
already-joined guard, and `Map.set` overwrites), and submits a second
prompt that is accepted — reaching a state in which the still-connected
participant (connection 1) owns two live prompts. -/
theorem same_connection_owns_two_prompts :
    (c9Final.prompts.map (fun p => p.submitterId)) = [1, 1] ∧
    c9Final.prompts.length = 2 ∧
    usersGet c9Final.connectedUsers 1 = some { id := 1, username := "bo" } := by
  rw [c9Final_eq]
  exact ⟨by decide, by decide, by decide⟩

/-- C9 amended: the pool invariant the code actually enforces is keyed to
the stored text and the submitter display name: no two live prompts share
a case-folded sanitized text, and no two live prompts share a submitter
name. A `submit_prompt` that would violate it is rejected with the state
unchanged (not merged), and the invariant is preserved by prompt
submission, pool-cap eviction and disconnect. (A connection that re-joins
under a new display name can still own two live prompts.) -/
theorem prompt_pool_uniqueness (st : ServerState) (sid sid2 : SocketId)
    (text : String) (now now2 : Nat)
    (hinv : promptPoolInv st.prompts) :
    promptPoolInv ((submitPromptHandler st sid text now).1.prompts) ∧
    promptPoolInv (managePromptsLimit st.prompts) ∧
    promptPoolInv ((handleUserDisconnect st sid2 now2).1.prompts) ∧
    (∀ u, usersGet st.connectedUsers sid = some u →
      (st.prompts.any (fun p =>
        jsToLower p.text == jsToLower (jsSubstring (jsTrim text) 500) ||
        p.submitter == u.username)) = true →
      (submitPromptHandler st sid text now).1 = st) := by
  refine ⟨?_, ?_, ?_, ?_⟩
  · unfold submitPromptHandler
    cases hu : usersGet st.connectedUsers sid with
    | none => exact hinv
    | some u2 =>
      dsimp only
      by_cases hemp : text.isEmpty = true
      · rw [if_pos hemp]; exact hinv
      · rw [if_neg hemp]
        by_cases hemp2 : (jsSubstring (jsTrim text) 500).isEmpty = true
        · rw [if_pos hemp2]; exact hinv
        · rw [if_neg hemp2]
          by_cases hdup : (st.prompts.any (fun p =>
              jsToLower p.text == jsToLower (jsSubstring (jsTrim text) 500) ||
              p.submitter == u2.username)) = true
          · rw [if_pos hdup]; exact hinv
          · rw [if_neg hdup]
            dsimp only
            rw [managePromptsLimit_eq_drop]
            refine List.Pairwise.sublist (List.drop_sublist _ _) ?_
            rw [List.pairwise_append]
            have hfalse : (st.prompts.any (fun p =>
                jsToLower p.text == jsToLower (jsSubstring (jsTrim text) 500) ||
                p.submitter == u2.username)) = false := by
              rwa [Bool.not_eq_true] at hdup
            refine ⟨hinv, List.pairwise_singleton _ _, ?_⟩
            intro a ha b hb
            rw [List.mem_singleton] at hb
            subst hb
            have hone := List.any_eq_false.mp hfalse a ha
            simp only [Bool.or_eq_true, beq_iff_eq, not_or] at hone
            exact ⟨hone.1, hone.2⟩
  · rw [managePromptsLimit_eq_drop]
    exact hinv.sublist (List.drop_sublist _ _)
  · unfold handleUserDisconnect
    cases hu2 : usersGet st.connectedUsers sid2 with
    | none => exact hinv
    | some u2 =>
      dsimp only
      exact hinv.map _ (fun a b hab => hab)
  · intro u hu hdup
    unfold submitPromptHandler
    rw [hu]
    dsimp only
    by_cases hemp : text.isEmpty = true
    · rw [if_pos hemp]
    · rw [if_neg hemp]
      by_cases hemp2 : (jsSubstring (jsTrim text) 500).isEmpty = true
      · rw [if_pos hemp2]
      · rw [if_neg hemp2, if_pos hdup]

/-- C9 amended, witness: in the reachable state `c9State2` (one live prompt
"hi" by "al"), the invariant holds, is preserved by the pool operations,
and a duplicate resubmission of "hi" by socket 1 leaves the state
unchanged. -/
theorem prompt_pool_uniqueness_witness :
    promptPoolInv ((submitPromptHandler c9State2 1 "hi" 20).1.prompts) ∧
    promptPoolInv (managePromptsLimit c9State2.prompts) ∧
    promptPoolInv ((handleUserDisconnect c9State2 1 21).1.prompts) ∧
    (∀ u, usersGet c9State2.connectedUsers 1 = some u →
      (c9State2.prompts.any (fun p =>
        jsToLower p.text == jsToLower (jsSubstring (jsTrim ("hi")) 500) ||
        p.submitter == u.username)) = true →
      (submitPromptHandler c9State2 1 "hi" 20).1 = c9State2) :=
  prompt_pool_uniqueness c9State2 1 1 "hi" 20 21 (by decide)
